import Mathlib

/-
Shallow embedding of the ZenUI core (src/index.js): the theme store, the
CSS-in-JS style engine with its hash-keyed cache, the declarative element
builder, and the Modal overlay lifecycle.  JS objects whose only observable
use is keyed lookup (theme categories) are embedded as String-keyed partial
maps; ordered JS structures (the style cache Map, the stylesheet rule list,
element children) are embedded as lists in insertion order.
-/

/- ---------- JS string helpers ---------- -/

/-- JS Array.prototype.join(" "): concatenation with a single space. -/
def joinSpace : List String → String
  | [] => ""
  | [x] => x
  | x :: y :: xs => x ++ " " ++ joinSpace (y :: xs)

/-- Whitespace-token decomposition of a class attribute (DOM class set). -/
def wordsAux : List Char → List Char → List String
  | [], [] => []
  | [], acc => [String.mk acc.reverse]
  | c :: cs, acc =>
    if c = ' ' then
      match acc with
      | [] => wordsAux cs []
      | _ => String.mk acc.reverse :: wordsAux cs []
    else wordsAux cs (c :: acc)

/-- The class tokens of a class attribute string. -/
def wordsOf (s : String) : List String := wordsAux s.data []

/-- DOM classList.add: append the token to the class attribute unless present. -/
def addClass (attr cls : String) : String :=
  if cls ∈ wordsOf attr then attr
  else if attr = "" then cls else attr ++ " " ++ cls

/- ---------- btoa-based hash (src/index.js line 96) ---------- -/

/-- The base64 alphabet used by btoa. -/
def b64Alphabet : List Char :=
  "ABCDEFGHIJKLMNOPQRSTUVWXYZabcdefghijklmnopqrstuvwxyz0123456789+/".data

/-- Character of a 6-bit base64 index. -/
def b64Char (n : Nat) : Char := b64Alphabet.getD n 'A'

/-- btoa on a byte sequence: standard base64 with padding. -/
def b64Encode : List Nat → List Char
  | [] => []
  | [a] => [b64Char (a / 4), b64Char (a % 4 * 16), '=', '=']
  | [a, b] => [b64Char (a / 4), b64Char (a % 4 * 16 + b / 16), b64Char (b % 16 * 4), '=']
  | a :: b :: c :: rest =>
    b64Char (a / 4) :: b64Char (a % 4 * 16 + b / 16) ::
    b64Char (b % 16 * 4 + c / 64) :: b64Char (c % 64) :: b64Encode rest

/-- btoa(cssString).replace of the plus, slash and equals characters by
nothing, then substring(0, 8): the style engine's content hash. -/
def hashOf (s : String) : String :=
  String.mk ((((b64Encode (s.data.map Char.toNat)).filter
    (fun c => !(c == '+') && !(c == '/') && !(c == '='))).take 8))

/- ---------- decimal rendering of the uniqueId counter ---------- -/

/-- Little-endian decimal digits, with fuel for structural recursion. -/
def decDigitsAux : Nat → Nat → List Nat
  | 0, _ => []
  | _ + 1, 0 => []
  | f + 1, n + 1 => (n + 1) % 10 :: decDigitsAux f ((n + 1) / 10)

/-- Little-endian decimal digits of a natural number, digits of 0 being [0]. -/
def decDigits (n : Nat) : List Nat := if n = 0 then [0] else decDigitsAux n n

/-- Character of a decimal digit. -/
def digitChar (d : Nat) : Char := Char.ofNat (48 + d)

/-- Numeric value of a decimal digit character. -/
def charToDigit (c : Char) : Nat := c.toNat - 48

/-- Decimal rendering of a natural number, as JS template interpolation does. -/
def decRender (n : Nat) : String := String.mk ((decDigits n).reverse.map digitChar)

/-- Decimal value of a digit string (left inverse of decRender). -/
def decVal (s : String) : Nat := Nat.ofDigits 10 ((s.data.map charToDigit).reverse)

/-- createUniqueId with the "zen-style" prefix used by css (line 99). -/
def clsName (n : Nat) : String := "zen-style-" ++ decRender n

/- ---------- theme store ---------- -/

/-- A theme category: a JS object observed only through string-keyed access. -/
abbrev Cat : Type := String → Option String

/-- The six-category token set (values kept as their serialized strings). -/
structure Theme where
  colors : Cat
  spacing : Cat
  typography : Cat
  borderRadius : Cat
  shadows : Cat
  transitions : Cat

/-- defaultTheme.colors. -/
def defaultColors : Cat := fun k =>
  if k = "primary" then some "#4a6cf7"
  else if k = "secondary" then some "#6c757d"
  else if k = "success" then some "#28a745"
  else if k = "danger" then some "#dc3545"
  else if k = "warning" then some "#ffc107"
  else if k = "info" then some "#17a2b8"
  else if k = "light" then some "#f8f9fa"
  else if k = "dark" then some "#343a40"
  else if k = "background" then some "#ffffff"
  else if k = "text" then some "#212529"
  else if k = "border" then some "#dee2e6"
  else none

/-- defaultTheme.spacing. -/
def defaultSpacing : Cat := fun k =>
  if k = "xs" then some "0.25rem"
  else if k = "sm" then some "0.5rem"
  else if k = "md" then some "1rem"
  else if k = "lg" then some "1.5rem"
  else if k = "xl" then some "2rem"
  else none

/-- defaultTheme.typography (lineHeight 1.5 kept as its serialization). -/
def defaultTypography : Cat := fun k =>
  if k = "fontFamily" then
    some "-apple-system, BlinkMacSystemFont, \"Segoe UI\", Roboto, Helvetica, Arial, sans-serif"
  else if k = "fontSize" then some "16px"
  else if k = "lineHeight" then some "1.5"
  else none

/-- defaultTheme.borderRadius. -/
def defaultBorderRadius : Cat := fun k =>
  if k = "sm" then some "0.25rem"
  else if k = "md" then some "0.375rem"
  else if k = "lg" then some "0.5rem"
  else if k = "pill" then some "50rem"
  else none

/-- defaultTheme.shadows. -/
def defaultShadows : Cat := fun k =>
  if k = "sm" then some "0 1px 2px rgba(0, 0, 0, 0.05)"
  else if k = "md" then some "0 4px 6px rgba(0, 0, 0, 0.1)"
  else if k = "lg" then some "0 10px 15px rgba(0, 0, 0, 0.1)"
  else none

/-- defaultTheme.transitions. -/
def defaultTransitions : Cat := fun k =>
  if k = "default" then some "all 0.2s ease-in-out"
  else if k = "fast" then some "all 0.1s ease-in-out"
  else if k = "slow" then some "all 0.3s ease-in-out"
  else none

/-- The default token set (src/index.js lines 11-53). -/
def defaultTheme : Theme :=
  { colors := defaultColors,
    spacing := defaultSpacing,
    typography := defaultTypography,
    borderRadius := defaultBorderRadius,
    shadows := defaultShadows,
    transitions := defaultTransitions }

/-- A partial theme update: an object that may carry any of the six category
objects (absent ones behave as the empty object, newTheme.colors or so). -/
structure PartialTheme where
  colors : Option Cat
  spacing : Option Cat
  typography : Option Cat
  borderRadius : Option Cat
  shadows : Option Cat
  transitions : Option Cat

/-- Object spread of an update over a base, observed through lookup: the
update's binding wins where present, the base's otherwise. -/
def spreadCat (old upd : Cat) : Cat := fun k =>
  match upd k with
  | some v => some v
  | none => old k

/-- One category of setTheme's merge: spread of (newTheme.cat or empty). -/
def mergeCat (old : Cat) (upd : Option Cat) : Cat :=
  spreadCat old (upd.getD (fun _ => none))

/-- The category-shallow merge performed by setTheme (lines 744-772).  The
leading top-level spread of newTheme is immediately overridden for all six
known categories by the explicit per-category spreads, so their net effect
is mergeCat per category. -/
def mergeTheme (old : Theme) (p : PartialTheme) : Theme :=
  { colors := mergeCat old.colors p.colors,
    spacing := mergeCat old.spacing p.spacing,
    typography := mergeCat old.typography p.typography,
    borderRadius := mergeCat old.borderRadius p.borderRadius,
    shadows := mergeCat old.shadows p.shadows,
    transitions := mergeCat old.transitions p.transitions }

/- ---------- style engine state ---------- -/

/-- Assoc-list lookup, the observation of the styleCache Map. -/
def lookupA (l : List (String × String)) (k : String) : Option String :=
  (l.find? (fun p => p.1 == k)).map (fun p => p.2)

/-- The module-level mutable state: active theme, styleCache (hash to class,
in insertion order), the stylesheet's rules (class name and body text, in
insertion order; the inserted rule string is dot, class, braces, body), and
the uniqueId counter. -/
structure ZenState where
  activeTheme : Theme
  styleCache : List (String × String)
  rules : List (String × String)
  uniqueId : Nat

/-- The state after module initialization. -/
def zenInit : ZenState :=
  { activeTheme := defaultTheme, styleCache := [], rules := [], uniqueId := 0 }

/-- A value in a style mapping: a literal, or a one-level nested block. -/
inductive StyleV where
  | v (s : String)
  | nested (l : List (String × String))

/-- A processed style mapping, in iteration order. -/
abbrev StylesMap : Type := List (String × StyleV)

/-- A style description: a static mapping or a function of the theme
(the code's typeof-function branch, line 79). -/
inductive StyleDesc where
  | static (m : StylesMap)
  | dyn (f : Theme → StylesMap)

/-- processedStyles: invoke a functional description on the active theme. -/
def resolveDesc (d : StyleDesc) (th : Theme) : StylesMap :=
  match d with
  | .static m => m
  | .dyn f => f th

/-- Serialization of one entry (lines 84-93): nested values become a block
whose braces are literal, plain values become key colon value semicolon. -/
def cssEntry (p : String × StyleV) : String :=
  match p.2 with
  | .v s => p.1 ++ ": " ++ s ++ ";"
  | .nested l =>
    p.1 ++ " \x7b " ++ joinSpace (l.map (fun q => q.1 ++ ": " ++ q.2 ++ ";")) ++ " \x7d"

/-- The full resolved rule text of a mapping: entries joined by a space. -/
def cssStringOf (m : StylesMap) : String := joinSpace (m.map cssEntry)

/-- The rule text a description resolves to under a theme. -/
def resolveText (d : StyleDesc) (th : Theme) : String :=
  cssStringOf (resolveDesc d th)

/-- The css function (lines 76-107): resolve, serialize, hash; on a cache hit
return the cached class, on a miss mint zen-style-(uniqueId++), record the
hash-to-class entry and append the rule to the stylesheet. -/
def css (st : ZenState) (d : StyleDesc) : String × ZenState :=
  let t := resolveText d st.activeTheme
  let h := hashOf t
  match lookupA st.styleCache h with
  | some cls => (cls, st)
  | none =>
    let cls := clsName st.uniqueId
    (cls,
      { activeTheme := st.activeTheme,
        styleCache := st.styleCache ++ [(h, cls)],
        rules := st.rules ++ [(cls, t)],
        uniqueId := st.uniqueId + 1 })

/-- setTheme (lines 744-777): category-shallow merge, then clear the cache. -/
def setTheme (st : ZenState) (p : PartialTheme) : ZenState :=
  { activeTheme := mergeTheme st.activeTheme p,
    styleCache := [],
    rules := st.rules,
    uniqueId := st.uniqueId }

/-- getTheme (lines 780-782): a top-level spread copy of the active theme.
In the value model the copy coincides with the value; the aliasing of its
nested category objects is refined by the heap model further below. -/
def getTheme (st : ZenState) : Theme := st.activeTheme

/-- resetTheme (lines 785-789): restore the defaults, clear the cache. -/
def resetTheme (st : ZenState) : ZenState :=
  { activeTheme := defaultTheme,
    styleCache := [],
    rules := st.rules,
    uniqueId := st.uniqueId }

/-- The operations that touch the style-engine state. -/
inductive Op where
  | opCss (d : StyleDesc)
  | opSetTheme (p : PartialTheme)
  | opResetTheme

/-- One operation applied to the state. -/
def applyOp (st : ZenState) (o : Op) : ZenState :=
  match o with
  | .opCss d => (css st d).2
  | .opSetTheme p => setTheme st p
  | .opResetTheme => resetTheme st

/-- A whole run of operations from a starting state. -/
def runOps (st : ZenState) (ops : List Op) : ZenState :=
  ops.foldl applyOp st

/-- The reachable-state invariant of the style engine: every cached class and
every rule's class was minted by the counter below its current value, cache
entries have pairwise distinct hashes and classes, and rules have pairwise
distinct class names. -/
def StInv (st : ZenState) : Prop :=
  (∀ p ∈ st.styleCache, ∃ n, n < st.uniqueId ∧ p.2 = clsName n) ∧
  st.styleCache.Pairwise (fun p q => p.1 ≠ q.1 ∧ p.2 ≠ q.2) ∧
  (∀ r ∈ st.rules, ∃ n, n < st.uniqueId ∧ r.1 = clsName n) ∧
  st.rules.Pairwise (fun r q => r.1 ≠ q.1)

/- ---------- element builder ---------- -/

/-- Symbolic identities of the handler functions the Modal wires up, plus a
generic user handler. -/
inductive HTag where
  | hOnClose
  | hOverlayClick
  | hCleanup
  | hSubmit
  | hUser (n : Nat)
deriving DecidableEq, BEq

/-- A value in the residual property bag of a node description. -/
inductive PropVal where
  | pstr (s : String)
  | pfunc (t : HTag)
  | pundefined
deriving DecidableEq, BEq

/-- The literal className property: a single string or an array of strings. -/
inductive CNVal where
  | cstr (s : String)
  | carr (l : List String)

/-- A built render-surface node.  An element carries its tag, class
attribute, inline style assignments, dataset assignments, plainly assigned
properties, event subscriptions and children; foreign stands for a truthy
non-string non-node child handed to appendChild. -/
inductive DNode where
  | text (s : String)
  | foreign
  | elem (tag : String) (classAttr : String)
      (styleProps : List (String × String))
      (datasetProps : List (String × String))
      (assignedProps : List (String × PropVal))
      (events : List (String × HTag))
      (children : List DNode)

/-- A single JS child value, with the falsy variants the code filters. -/
inductive ChildV where
  | str (s : String)
  | num (n : Int)
  | bool (b : Bool)
  | null
  | node (d : DNode)

/-- The children property: one value or an array of values. -/
inductive ChildrenVal where
  | single (c : ChildV)
  | multiple (l : List ChildV)

/-- JS truthiness of a child value. -/
def truthyChild : ChildV → Bool
  | .str s => !(s == "")
  | .num n => !(n == 0)
  | .bool b => b
  | .null => false
  | .node _ => true

/-- What appendChild receives for one truthy child: strings become text
nodes, nodes pass through, other values are foreign to the tree API. -/
def childToNode : ChildV → DNode
  | .str s => .text s
  | .node d => d
  | _ => .foreign

/-- The properties object taken apart by createElement (line 118). -/
structure EProps where
  className : Option CNVal
  style : Option (List (String × String))
  children : Option ChildrenVal
  dataset : Option (List (String × String))
  cssStyles : Option StyleDesc
  rest : List (String × PropVal)

/-- Step of createElement for cssStyles (lines 127-131): resolve through the
style engine and classList.add the generated class. -/
def applyCss (st : ZenState) (attr : String) (o : Option StyleDesc) :
    String × ZenState :=
  match o with
  | none => (attr, st)
  | some d =>
    let r := css st d
    (addClass attr r.1, r.2)

/-- Step of createElement for the literal className (lines 133-140): a falsy
string is skipped, a string is assigned to the class attribute wholesale,
an array is filtered of falsy entries and joined with spaces then assigned. -/
def applyClassName (attr : String) (o : Option CNVal) : String :=
  match o with
  | none => attr
  | some (.cstr s) => if s = "" then attr else s
  | some (.carr l) => joinSpace (l.filter (fun x => !(x == "")))

/-- Does a property name start with the letters o then n. -/
def startsOn (s : String) : Bool :=
  match s.data with
  | 'o' :: 'n' :: _ => true
  | _ => false

/-- ASCII lower-casing of one character, as toLowerCase does on ASCII. -/
def lowerChar (c : Char) : Char :=
  if 'A' ≤ c ∧ c ≤ 'Z' then Char.ofNat (c.toNat + 32) else c

/-- ASCII lower-casing of a string. -/
def lowerStr (s : String) : String := String.mk (s.data.map lowerChar)

/-- Drop of the first n characters of a string. -/
def dropStr (n : Nat) (s : String) : String := String.mk (s.data.drop n)

/-- Step of createElement for the residual property bag (lines 154-167):
an on-prefixed function becomes an event subscription under the lower-cased
suffix; a ref function is invoked with the node and not stored (the external
call is outside the tree state); everything else is assigned as a property. -/
def processRest (l : List (String × PropVal)) :
    List (String × PropVal) × List (String × HTag) :=
  match l with
  | [] => ([], [])
  | (k, v) :: xs =>
    let r := processRest xs
    match v with
    | .pfunc t =>
      if startsOn k then (r.1, (lowerStr (dropStr 2 k), t) :: r.2)
      else if k = "ref" then (r.1, r.2)
      else ((k, v) :: r.1, r.2)
    | _ => ((k, v) :: r.1, r.2)

/-- Step of createElement for children (lines 169-184): a falsy value is
skipped entirely; an array appends its truthy entries in order; a truthy
single string replaces the node content by one text node (textContent); any
other truthy single value is appended. -/
def applyChildren (cur : List DNode) (o : Option ChildrenVal) : List DNode :=
  match o with
  | none => cur
  | some (.multiple l) => cur ++ (l.filter truthyChild).map childToNode
  | some (.single c) =>
    if truthyChild c then
      match c with
      | .str s => [DNode.text s]
      | _ => cur ++ [childToNode c]
    else cur

/-- createElement (lines 115-187), threading the style-engine state: apply
cssStyles, then the literal className, then inline style, dataset, the
residual bag, and finally children. -/
def createElement (st : ZenState) (tag : String) (p : EProps) :
    DNode × ZenState :=
  let r := applyCss st "" p.cssStyles
  let attr := applyClassName r.1 p.className
  let pr := processRest p.rest
  let children := applyChildren [] p.children
  (DNode.elem tag attr (p.style.getD []) (p.dataset.getD []) pr.1 pr.2 children,
   r.2)

/-- Class attribute of a node. -/
def classAttrOf : DNode → String
  | .elem _ a _ _ _ _ _ => a
  | _ => ""

/-- Children of a node. -/
def childrenOf : DNode → List DNode
  | .elem _ _ _ _ _ _ ch => ch
  | _ => []

/-- Event subscriptions of a node. -/
def eventsOf : DNode → List (String × HTag)
  | .elem _ _ _ _ _ ev _ => ev
  | _ => []

mutual
/-- A predicate holding on a node and all its descendants. -/
def allN (p : DNode → Bool) : DNode → Bool
  | .text s => p (.text s)
  | .foreign => p .foreign
  | .elem t a sp dp ap ev ch => p (DNode.elem t a sp dp ap ev ch) && allNL p ch
/-- A predicate holding on every node of a list and their descendants. -/
def allNL (p : DNode → Bool) : List DNode → Bool
  | [] => true
  | n :: ns => allN p n && allNL p ns
end

/-- A node is not a button element. -/
def noButton : DNode → Bool
  | .elem t _ _ _ _ _ _ => !(t == "button")
  | _ => true

/-- A node carries no click subscription of the Modal cleanup closure. -/
def noCleanup : DNode → Bool
  | .elem _ _ _ _ _ ev _ => !(ev.contains ("click", HTag.hCleanup))
  | _ => true

/-- addEventListener on an already-built element (the Modal mutates the
shared closeButton node after building it, line 736): the final tree state
carries the extra subscription. -/
def addEvent (n : DNode) (e : String × HTag) : DNode :=
  match n with
  | .elem t a sp dp ap ev ch => .elem t a sp dp ap (ev ++ [e]) ch
  | x => x

/- ---------- Modal component (src/index.js lines 540-739) ---------- -/

/-- The Modal size prop. -/
inductive MSize where
  | small
  | medium
  | large
  | fullscreen

/-- The Modal props the embedding covers: textual content and footer, an
optional user close handler, the open flag and the size. -/
structure MProps where
  title : Option String
  content : Option String
  footer : Option String
  isOpen : Bool
  onClose : Option HTag
  size : MSize

/-- JS property access on a category, interpolating undefined when absent. -/
def catGet (c : Cat) (k : String) : String := (c k).getD "undefined"

/-- overlayStyles (lines 554-565). -/
def overlayStyles : Theme → StylesMap := fun _ =>
  [ ("position", .v "fixed"), ("top", .v "0"), ("left", .v "0"),
    ("right", .v "0"), ("bottom", .v "0"),
    ("backgroundColor", .v "rgba(0, 0, 0, 0.5)"),
    ("display", .v "flex"), ("alignItems", .v "center"),
    ("justifyContent", .v "center"), ("zIndex", .v "1000") ]

/-- The width and height entries of getModalStyles' sizeMap. -/
def sizeEntries : MSize → StylesMap
  | .small => [("width", .v "300px")]
  | .medium => [("width", .v "500px")]
  | .large => [("width", .v "800px")]
  | .fullscreen => [("width", .v "95vw"), ("height", .v "95vh")]

/-- getModalStyles (lines 567-600): base entries then the size entries; no
key is shared, so the spread is the concatenation in iteration order. -/
def getModalStyles (size : MSize) : Theme → StylesMap := fun th =>
  [ ("backgroundColor", StyleV.v (catGet th.colors "background")),
    ("borderRadius", StyleV.v (catGet th.borderRadius "md")),
    ("boxShadow", StyleV.v (catGet th.shadows "lg")),
    ("display", StyleV.v "flex"), ("flexDirection", StyleV.v "column"),
    ("maxHeight", StyleV.v "90vh"), ("overflow", StyleV.v "hidden"),
    ("position", StyleV.v "relative"), ("zIndex", StyleV.v "1001") ]
  ++ sizeEntries size

/-- modalHeaderStyles (lines 602-608). -/
def modalHeaderStyles : Theme → StylesMap := fun th =>
  [ ("display", .v "flex"), ("justifyContent", .v "space-between"),
    ("alignItems", .v "center"),
    ("padding", .v (catGet th.spacing "md")),
    ("borderBottom", .v ("1px solid " ++ catGet th.colors "border")) ]

/-- modalTitleStyles (lines 610-614), a function taking no theme. -/
def modalTitleStyles : Theme → StylesMap := fun _ =>
  [ ("margin", .v "0"), ("fontWeight", .v "bold"), ("fontSize", .v "1.25rem") ]

/-- closeButtonStyles (lines 616-627). -/
def closeButtonStyles : Theme → StylesMap := fun th =>
  [ ("background", .v "none"), ("border", .v "none"), ("cursor", .v "pointer"),
    ("fontSize", .v "1.5rem"), ("lineHeight", .v "1"), ("padding", .v "0"),
    ("color", .v (catGet th.colors "secondary")),
    ("&:hover", .nested [("color", catGet th.colors "dark")]) ]

/-- modalContentStyles (lines 629-633). -/
def modalContentStyles : Theme → StylesMap := fun th =>
  [ ("flex", .v "1 1 auto"), ("padding", .v (catGet th.spacing "md")),
    ("overflowY", .v "auto") ]

/-- modalFooterStyles (lines 635-641). -/
def modalFooterStyles : Theme → StylesMap := fun th =>
  [ ("padding", .v (catGet th.spacing "md")),
    ("borderTop", .v ("1px solid " ++ catGet th.colors "border")),
    ("display", .v "flex"), ("justifyContent", .v "flex-end"),
    ("gap", .v (catGet th.spacing "sm")) ]

/-- The onClick property value of the close button: the user handler when
supplied, the undefined value otherwise (then not a function, so assigned
as a plain property by the residual-bag step). -/
def onCloseProp (oc : Option HTag) : PropVal :=
  match oc with
  | some t => .pfunc t
  | none => .pundefined

/-- Empty property record helper for concise createElement calls. -/
def noProps : EProps :=
  { className := none, style := none, children := none, dataset := none,
    cssStyles := none, rest := [] }

/-- The open branch of the Modal (lines 554-738): builds the close button,
title, optional header, content, optional footer, the modal element and the
overlay, wires the overlay click handler, and finally adds the cleanup click
subscription to the shared close-button node.  Attaching the overlay to the
document body and starting the entrance animations are effects on the render
surface outside this state.  Returns the modal element, the overlay and the
final style-engine state. -/
def buildOpenModal (st : ZenState) (p : MProps) :
    DNode × DNode × ZenState :=
  let rBtn := createElement st "button"
    { noProps with
        cssStyles := some (.dyn closeButtonStyles),
        rest := [("onClick", onCloseProp p.onClose), ("ariaLabel", .pstr "Close")],
        children := some (.single (.str "×")) }
  let closeButton := addEvent rBtn.1 ("click", HTag.hCleanup)
  let rTitle := createElement rBtn.2 "h3"
    { noProps with
        cssStyles := some (.dyn modalTitleStyles),
        children := p.title.map (fun t => .single (.str t)) }
  let rHeader : Option DNode × ZenState :=
    match p.title with
    | some _ =>
      let r := createElement rTitle.2 "div"
        { noProps with
            cssStyles := some (.dyn modalHeaderStyles),
            children := some (.multiple [.node rTitle.1, .node closeButton]) }
      (some r.1, r.2)
    | none => (none, rTitle.2)
  let rContent := createElement rHeader.2 "div"
    { noProps with
        cssStyles := some (.dyn modalContentStyles),
        children :=
        match p.content with
        | some s => if s = "" then none else some (.single (.str s))
        | none => none }
  let rFooter : Option DNode × ZenState :=
    match p.footer with
    | some f =>
      if f = "" then (none, rContent.2)
      else
        let r := createElement rContent.2 "div"
          { noProps with
              cssStyles := some (.dyn modalFooterStyles),
              children := some (.single (.str f)) }
        (some r.1, r.2)
    | none => (none, rContent.2)
  let rModal := createElement rFooter.2 "div"
    { noProps with
        cssStyles := some (.dyn (getModalStyles p.size)),
        children := some (.multiple
        ((rHeader.1.toList ++ [rContent.1] ++ rFooter.1.toList).map .node)) }
  let rOverlay := createElement rModal.2 "div"
    { noProps with
        cssStyles := some (.dyn overlayStyles),
        rest := [("onClick", .pfunc HTag.hOverlayClick)],
        children := some (.single (.node rModal.1)) }
  (rModal.1, rOverlay.1, rOverlay.2)

/-- The Modal component (line 552 gate): no node at all when not open. -/
def Modal (st : ZenState) (p : MProps) :
    Option (DNode × DNode) × ZenState :=
  if p.isOpen then
    let b := buildOpenModal st p
    (some (b.1, b.2.1), b.2.2)
  else (none, st)

/- ---------- Modal close lifecycle (lines 711-736) ---------- -/

/-- Observable state of one modal instance around its close path: whether
the overlay is attached, how many exit-animation completion notifications
are still pending, how many exit animations were started, and how many
times the overlay was detached. -/
structure MachState where
  attached : Bool
  pending : Nat
  exitAnims : Nat
  removals : Nat
deriving DecidableEq

/-- The cleanup closure (lines 711-730): guarded only by the overlay still
having a parent; when attached it starts the two exit animations and
registers one more completion notification, detaching nothing itself. -/
def cleanupStep (m : MachState) : MachState :=
  if m.attached then
    { m with exitAnims := m.exitAnims + 2, pending := m.pending + 1 }
  else m

/-- One pending completion notification fires (lines 724-728): the overlay
is removed only when it still has a parent. -/
def finishStep (m : MachState) : MachState :=
  match m.pending with
  | 0 => m
  | q + 1 =>
    if m.attached then
      { attached := false, pending := q, exitAnims := m.exitAnims,
        removals := m.removals + 1 }
    else { m with pending := q }

/-- Events of the close lifecycle. -/
inductive MEvent where
  | close
  | finish

/-- One lifecycle event applied to the instance state. -/
def stepM (m : MachState) (e : MEvent) : MachState :=
  match e with
  | .close => cleanupStep m
  | .finish => finishStep m

/-- A freshly opened, attached modal instance. -/
def openModal : MachState :=
  { attached := true, pending := 0, exitAnims := 0, removals := 0 }

/-- A run of close-lifecycle events from the open state. -/
def runEvents (es : List MEvent) : MachState := es.foldl stepM openModal

/-- The lifecycle invariant: an attached overlay was never removed, and the
overlay is removed at most once. -/
def MachInv (m : MachState) : Prop :=
  (m.attached = true → m.removals = 0) ∧ m.removals ≤ 1

/- ---------- heap refinement of getTheme's shallow copy ---------- -/

/-- A mutable category object in the heap. -/
abbrev CatObj : Type := String → Option String

/-- The heap of category objects, addressed by allocation index. -/
abbrev Heap : Type := List CatObj

/-- Dereference of a category address. -/
def readCat (h : Heap) (a : Nat) : CatObj := h.getD a (fun _ => none)

/-- In-place mutation of one token of the category object at an address. -/
def writeTok (h : Heap) (a : Nat) (k v : String) : Heap :=
  h.set a (fun q => if q = k then some v else readCat h a q)

/-- The six category-object references a theme object holds. -/
structure ThemeRefC where
  colors : Nat
  spacing : Nat
  typography : Nat
  borderRadius : Nat
  shadows : Nat
  transitions : Nat

/-- The theme store seen at reference level: the heap and the references the
active theme object holds. -/
structure HeapState where
  heap : Heap
  active : ThemeRefC

/-- getTheme as the source writes it: a fresh top-level object by spread,
whose six category slots hold the same references as the active theme. -/
def getThemeCopy (s : HeapState) : ThemeRefC :=
  { colors := s.active.colors, spacing := s.active.spacing,
    typography := s.active.typography, borderRadius := s.active.borderRadius,
    shadows := s.active.shadows, transitions := s.active.transitions }

/-- A concrete heap holding the six default category objects. -/
def heapC6 : Heap :=
  [defaultColors, defaultSpacing, defaultTypography, defaultBorderRadius,
   defaultShadows, defaultTransitions]

/-- The default theme laid out in the concrete heap. -/
def stateC6 : HeapState :=
  { heap := heapC6,
    active := { colors := 0, spacing := 1, typography := 2,
                borderRadius := 3, shadows := 4, transitions := 5 } }

/- ---------- concrete inputs used by counterexamples and witnesses ---------- -/

/-- A style description whose rule text is the string color colon red1. -/
def dRed1 : StyleDesc := .static [("color", .v "red1")]

/-- A style description whose rule text is the string color colon red2. -/
def dRed2 : StyleDesc := .static [("color", .v "red2")]

/-- A plain one-entry style description. -/
def dColorRed : StyleDesc := .static [("color", .v "red")]

/-- A second style description with an unrelated property. -/
def dMargin : StyleDesc := .static [("margin", .v "0")]

/-- The partial update touching only the primary color token. -/
def primaryOnly (x : String) : PartialTheme :=
  { colors := some (fun k => if k = "primary" then some x else none),
    spacing := none, typography := none, borderRadius := none,
    shadows := none, transitions := none }

/-- A Modal props record with the open flag set and no title. -/
def mpNoTitle (content footer : Option String) (oc : Option HTag) (sz : MSize) :
    MProps :=
  { title := none, content := content, footer := footer, isOpen := true,
    onClose := oc, size := sz }

/-- The node-description of the C1 scenario: a style description together
with a literal class string. -/
def propsBoth : EProps :=
  { noProps with
      cssStyles := some dColorRed, className := some (.cstr "foo") }

/- ---------- helper lemmas ---------- -/

theorem decDigitsAux_lt_ten (f n : Nat) : ∀ d ∈ decDigitsAux f n, d < 10 := by
  induction f generalizing n with
  | zero => simp [decDigitsAux]
  | succ f ih =>
    cases n with
    | zero => simp [decDigitsAux]
    | succ n =>
      intro d hd
      simp only [decDigitsAux, List.mem_cons] at hd
      rcases hd with h | h
      · omega
      · exact ih _ _ h

theorem decDigits_lt_ten (n : Nat) : ∀ d ∈ decDigits n, d < 10 := by
  unfold decDigits
  by_cases h : n = 0
  · simp [h]
  · simpa [h] using decDigitsAux_lt_ten n n

theorem ofDigits_decDigitsAux (f : Nat) :
    ∀ n, n ≤ f → Nat.ofDigits 10 (decDigitsAux f n) = n := by
  induction f with
  | zero => intro n h; interval_cases n; simp [decDigitsAux]
  | succ f ih =>
    intro n h
    cases n with
    | zero => simp [decDigitsAux]
    | succ n =>
      have hle : (n + 1) / 10 ≤ f := by omega
      simp only [decDigitsAux, Nat.ofDigits_cons, ih _ hle]
      omega

theorem ofDigits_decDigits (n : Nat) : Nat.ofDigits 10 (decDigits n) = n := by
  unfold decDigits
  by_cases h : n = 0
  · simp [h, Nat.ofDigits]
  · simpa [h] using ofDigits_decDigitsAux n n (Nat.le_refl n)

theorem charToDigit_digitChar (d : Nat) (h : d < 10) :
    charToDigit (digitChar d) = d := by
  interval_cases d <;> rfl

theorem decVal_decRender (n : Nat) : decVal (decRender n) = n := by
  unfold decVal decRender
  have hmap : ((decDigits n).reverse.map digitChar).map charToDigit
      = (decDigits n).reverse := by
    rw [List.map_map]
    have : ∀ d ∈ (decDigits n).reverse, (charToDigit ∘ digitChar) d = d := by
      intro d hd
      exact charToDigit_digitChar d (decDigits_lt_ten n d (List.mem_reverse.mp hd))
    calc ((decDigits n).reverse.map (charToDigit ∘ digitChar))
        = (decDigits n).reverse.map id := List.map_congr_left this
      _ = (decDigits n).reverse := List.map_id _
  simp only [hmap, List.reverse_reverse]
  exact ofDigits_decDigits n

theorem decRender_inj {m n : Nat} (h : decRender m = decRender n) : m = n := by
  have := congrArg decVal h
  rwa [decVal_decRender, decVal_decRender] at this

theorem clsName_inj {m n : Nat} (h : clsName m = clsName n) : m = n := by
  apply decRender_inj
  have hd := congrArg String.data h
  simp only [clsName] at hd
  have hd' : "zen-style-".data ++ (decRender m).data
      = "zen-style-".data ++ (decRender n).data := hd
  exact String.ext (List.append_cancel_left hd')

theorem clsName_ne {m n : Nat} (h : m ≠ n) : clsName m ≠ clsName n :=
  fun he => h (clsName_inj he)

theorem lookupA_cons (p : String × String) (l : List (String × String))
    (k : String) :
    lookupA (p :: l) k = if p.1 = k then some p.2 else lookupA l k := by
  unfold lookupA
  by_cases hak : p.1 = k
  · simp [List.find?, hak]
  · have hb : (p.1 == k) = false := beq_eq_false_iff_ne.mpr hak
    simp [List.find?, hak, hb]

theorem lookupA_append_right {l : List (String × String)} {h c : String}
    (hl : lookupA l h = none) : lookupA (l ++ [(h, c)]) h = some c := by
  induction l with
  | nil => simp [lookupA, List.find?]
  | cons p ps ih =>
    rw [lookupA_cons] at hl
    by_cases hp : p.1 = h
    · simp [hp] at hl
    · rw [List.cons_append, lookupA_cons, if_neg hp]
      exact ih (by simpa [hp] using hl)

theorem lookupA_append_ne {l : List (String × String)} {h h' c : String}
    (hne : h' ≠ h) : lookupA (l ++ [(h, c)]) h' = lookupA l h' := by
  have hb : (h == h') = false := beq_eq_false_iff_ne.mpr (fun he => hne he.symm)
  induction l with
  | nil => simp [lookupA, List.find?, hb]
  | cons p ps ih =>
    rw [List.cons_append, lookupA_cons, lookupA_cons]
    by_cases hp : p.1 = h'
    · simp [hp]
    · simp [hp, ih]

theorem lookupA_none_forall {l : List (String × String)} {h : String}
    (hl : lookupA l h = none) : ∀ p ∈ l, p.1 ≠ h := by
  induction l with
  | nil => simp
  | cons p ps ih =>
    rw [lookupA_cons] at hl
    by_cases hp : p.1 = h
    · simp [hp] at hl
    · intro q hq
      rcases List.mem_cons.mp hq with hq | hq
      · rw [hq]; exact hp
      · exact ih (by simpa [hp] using hl) q hq

theorem lookupA_some_mem {l : List (String × String)} {h c : String}
    (hl : lookupA l h = some c) : (h, c) ∈ l := by
  induction l with
  | nil => simp [lookupA, List.find?] at hl
  | cons p ps ih =>
    rw [lookupA_cons] at hl
    by_cases hp : p.1 = h
    · rw [if_pos hp] at hl
      have : p = (h, c) := by
        rcases p with ⟨a, b⟩
        simp at hl hp
        simp [hp, hl]
      rw [← this]
      exact List.mem_cons_self _ _
    · rw [if_neg hp] at hl
      exact List.mem_cons_of_mem _ (ih hl)

/-- The css call never changes the active theme. -/
theorem css_activeTheme (st : ZenState) (d : StyleDesc) :
    (css st d).2.activeTheme = st.activeTheme := by
  unfold css
  rcases h : lookupA st.styleCache (hashOf (resolveText d st.activeTheme)) with _ | cls
  all_goals simp [h]

/-- The css call never decreases the counter. -/
theorem css_uniqueId (st : ZenState) (d : StyleDesc) :
    st.uniqueId ≤ (css st d).2.uniqueId := by
  unfold css
  rcases h : lookupA st.styleCache (hashOf (resolveText d st.activeTheme)) with _ | cls
  all_goals simp [h]

theorem stInv_init : StInv zenInit := by
  refine ⟨?_, ?_, ?_, ?_⟩ <;> simp [zenInit, StInv]

theorem stInv_css (st : ZenState) (d : StyleDesc) (hinv : StInv st) :
    StInv (css st d).2 := by
  obtain ⟨hc1, hc2, hr1, hr2⟩ := hinv
  unfold css
  rcases hl : lookupA st.styleCache (hashOf (resolveText d st.activeTheme))
    with _ | cls
  · simp only [hl]
    refine ⟨?_, ?_, ?_, ?_⟩
    · intro p hp
      rcases List.mem_append.mp hp with hp | hp
      · obtain ⟨n, hn, he⟩ := hc1 p hp
        exact ⟨n, Nat.lt_succ_of_lt hn, he⟩
      · simp at hp
        exact ⟨st.uniqueId, Nat.lt_succ_self _, by rw [hp]⟩
    · rw [List.pairwise_append]
      refine ⟨hc2, List.pairwise_singleton _ _, ?_⟩
      intro p hp q hq
      simp at hq
      constructor
      · rw [hq]
        exact lookupA_none_forall hl p hp
      · rw [hq]
        obtain ⟨n, hn, he⟩ := hc1 p hp
        rw [he]
        exact clsName_ne (Nat.ne_of_lt hn)
    · intro r hr
      rcases List.mem_append.mp hr with hr | hr
      · obtain ⟨n, hn, he⟩ := hr1 r hr
        exact ⟨n, Nat.lt_succ_of_lt hn, he⟩
      · simp at hr
        exact ⟨st.uniqueId, Nat.lt_succ_self _, by rw [hr]⟩
    · rw [List.pairwise_append]
      refine ⟨hr2, List.pairwise_singleton _ _, ?_⟩
      intro r hr q hq
      simp at hq
      rw [hq]
      show r.1 ≠ clsName st.uniqueId
      obtain ⟨n, hn, he⟩ := hr1 r hr
      rw [he]
      exact clsName_ne (Nat.ne_of_lt hn)
  · simp only [hl]
    exact ⟨hc1, hc2, hr1, hr2⟩

theorem stInv_setTheme (st : ZenState) (p : PartialTheme) (hinv : StInv st) :
    StInv (setTheme st p) := by
  obtain ⟨_, _, hr1, hr2⟩ := hinv
  exact ⟨by simp [setTheme], by simp [setTheme], hr1, hr2⟩

theorem stInv_resetTheme (st : ZenState) (hinv : StInv st) :
    StInv (resetTheme st) := by
  obtain ⟨_, _, hr1, hr2⟩ := hinv
  exact ⟨by simp [resetTheme], by simp [resetTheme], hr1, hr2⟩

theorem stInv_applyOp (st : ZenState) (o : Op) (hinv : StInv st) :
    StInv (applyOp st o) := by
  cases o with
  | opCss d => exact stInv_css st d hinv
  | opSetTheme p => exact stInv_setTheme st p hinv
  | opResetTheme => exact stInv_resetTheme st hinv

theorem stInv_runOps (st : ZenState) (ops : List Op) (hinv : StInv st) :
    StInv (runOps st ops) := by
  induction ops generalizing st with
  | nil => exact hinv
  | cons o os ih => exact ih _ (stInv_applyOp st o hinv)

theorem machInv_step (m : MachState) (e : MEvent) (h : MachInv m) :
    MachInv (stepM m e) := by
  obtain ⟨h1, h2⟩ := h
  cases e with
  | close =>
    unfold stepM cleanupStep
    by_cases ha : m.attached = true
    · simp only [ha, if_true]
      exact ⟨fun _ => h1 ha, h2⟩
    · simp only [if_neg ha]
      exact ⟨h1, h2⟩
  | finish =>
    unfold stepM finishStep
    rcases hp : m.pending with _ | q
    · exact ⟨h1, h2⟩
    · by_cases ha : m.attached = true
      · simp only [ha, if_true]
        exact ⟨fun hc => by simp at hc, by rw [h1 ha]⟩
      · simp only [if_neg ha]
        exact ⟨fun hc => h1 hc, h2⟩

theorem machInv_run (es : List MEvent) : MachInv (runEvents es) := by
  have base : MachInv openModal := by
    constructor
    · intro _; rfl
    · simp [openModal]
  unfold runEvents
  generalize openModal = m at base ⊢
  induction es generalizing m with
  | nil => exact base
  | cons e es ih => exact ih _ (machInv_step m e base)

theorem addClass_empty (cls : String) : addClass "" cls = cls := by
  simp [addClass, wordsOf, wordsAux]

/-- C1 counterexample: with a style description and the literal class string
foo given together, the class the style engine minted for that description
is absent from the built node's class tokens (the class attribute is foo). -/
theorem createElement_c1_cex :
    classAttrOf (createElement zenInit "div" propsBoth).1 = "foo" ∧
    ¬ ((css zenInit dColorRed).1
        ∈ wordsOf (classAttrOf (createElement zenInit "div" propsBoth).1)) := by
  constructor
  · decide
  · decide

/-- C1 amended: when a node description carries both a style description and
a truthy literal className string, the literal string replaces the class
attribute wholesale, so the style-engine class from the earlier step is not
retained; the style-engine class is the class attribute exactly when no
literal className is given. -/
theorem createElement_className_replaces (st : ZenState) (d : StyleDesc)
    (s : String) (hs : s ≠ "") :
    classAttrOf (createElement st "div"
      { noProps with cssStyles := some d, className := some (.cstr s) }).1 = s ∧
    classAttrOf (createElement st "div"
      { noProps with cssStyles := some d }).1 = (css st d).1 := by
  constructor
  · simp [createElement, applyCss, applyClassName, classAttrOf, noProps, hs]
  · simp [createElement, applyCss, applyClassName, classAttrOf, noProps,
      addClass_empty]

/-- C1 amended witness at a concrete input. -/
theorem createElement_className_replaces_witness :
    ("foo" : String) ≠ "" ∧
    (classAttrOf (createElement zenInit "div"
      { noProps with cssStyles := some dColorRed, className := some (.cstr "foo") }).1 = "foo" ∧
    classAttrOf (createElement zenInit "div"
      { noProps with cssStyles := some dColorRed }).1 = (css zenInit dColorRed).1) :=
  ⟨by decide, createElement_className_replaces zenInit dColorRed "foo" (by decide)⟩

/-- C2: two style descriptions resolving to the same rule text under the
current active theme get the same class name, and the second call changes
nothing at all in the style-engine state: the rule for that text is inserted
at most once however many times css is called. -/
theorem css_idempotent_same_text (st : ZenState) (d1 d2 : StyleDesc)
    (h : resolveText d1 st.activeTheme = resolveText d2 st.activeTheme) :
    (css (css st d1).2 d2).1 = (css st d1).1 ∧
    (css (css st d1).2 d2).2 = (css st d1).2 := by
  rcases hl : lookupA st.styleCache (hashOf (resolveText d1 st.activeTheme))
    with _ | cls
  · simp only [css, hl, ← h]
    rw [lookupA_append_right hl]
    exact ⟨rfl, rfl⟩
  · simp [css, hl, ← h]

/-- C2 witness at a concrete input. -/
theorem css_idempotent_same_text_witness :
    resolveText dColorRed zenInit.activeTheme
      = resolveText dColorRed zenInit.activeTheme ∧
    ((css (css zenInit dColorRed).2 dColorRed).1 = (css zenInit dColorRed).1 ∧
     (css (css zenInit dColorRed).2 dColorRed).2 = (css zenInit dColorRed).2) :=
  ⟨rfl, css_idempotent_same_text zenInit dColorRed dColorRed rfl⟩

/-- C3 counterexample: the descriptions color red1 and color red2 resolve to
distinct rule texts, yet their truncated btoa hashes agree, so css returns
the same class name for both. -/
theorem css_collision_cex :
    resolveText dRed1 zenInit.activeTheme ≠ resolveText dRed2 zenInit.activeTheme ∧
    (css (css zenInit dRed1).2 dRed2).1 = (css zenInit dRed1).1 := by
  constructor
  · decide
  · decide

/-- C3 amended: on any reachable style-engine state, two style descriptions
whose resolved rule texts have distinct truncated hashes receive distinct
class names. -/
theorem css_distinct_hash_distinct_class (st : ZenState) (d1 d2 : StyleDesc)
    (hinv : StInv st)
    (hne : hashOf (resolveText d1 st.activeTheme)
         ≠ hashOf (resolveText d2 st.activeTheme)) :
    (css (css st d1).2 d2).1 ≠ (css st d1).1 := by
  obtain ⟨hc1, hc2, _, _⟩ := hinv
  rcases hl1 : lookupA st.styleCache (hashOf (resolveText d1 st.activeTheme))
    with _ | c1
  · simp only [css, hl1]
    rw [lookupA_append_ne (Ne.symm hne)]
    rcases hl2 : lookupA st.styleCache (hashOf (resolveText d2 st.activeTheme))
      with _ | c2
    · exact clsName_ne (Nat.succ_ne_self st.uniqueId)
    · show c2 ≠ clsName st.uniqueId
      obtain ⟨n, hn, he⟩ := hc1 _ (lookupA_some_mem hl2)
      have he' : c2 = clsName n := he
      rw [he']
      exact clsName_ne (Nat.ne_of_lt hn)
  · simp only [css, hl1]
    rcases hl2 : lookupA st.styleCache (hashOf (resolveText d2 st.activeTheme))
      with _ | c2
    · show clsName st.uniqueId ≠ c1
      obtain ⟨n, hn, he⟩ := hc1 _ (lookupA_some_mem hl1)
      have he' : c1 = clsName n := he
      rw [he']
      exact clsName_ne (Ne.symm (Nat.ne_of_lt hn))
    · show c2 ≠ c1
      have hm1 := lookupA_some_mem hl1
      have hm2 := lookupA_some_mem hl2
      have hsym : Symmetric (fun p q : String × String => p.1 ≠ q.1 ∧ p.2 ≠ q.2) := by
        intro a b hab
        exact ⟨Ne.symm hab.1, Ne.symm hab.2⟩
      have hnepair :
          ((hashOf (resolveText d2 st.activeTheme), c2) : String × String)
          ≠ (hashOf (resolveText d1 st.activeTheme), c1) := by
        intro he
        exact hne (congrArg Prod.fst he).symm
      exact (hc2.forall hsym hm2 hm1 hnepair).2

/-- C3 amended witness at concrete inputs with distinct hashes. -/
theorem css_distinct_hash_distinct_class_witness :
    StInv zenInit ∧
    (hashOf (resolveText dColorRed zenInit.activeTheme)
      ≠ hashOf (resolveText dMargin zenInit.activeTheme)) ∧
    (css (css zenInit dColorRed).2 dMargin).1 ≠ (css zenInit dColorRed).1 :=
  ⟨stInv_init, by decide,
   css_distinct_hash_distinct_class zenInit dColorRed dMargin stInv_init (by decide)⟩

/-- C4: a setTheme update touching only the primary color token leaves every
other category and every other color token of the theme returned by getTheme
unchanged, and sets the primary token. -/
theorem setTheme_primary_frame (st : ZenState) (x : String) :
    (getTheme (setTheme st (primaryOnly x))).spacing = (getTheme st).spacing ∧
    (getTheme (setTheme st (primaryOnly x))).typography = (getTheme st).typography ∧
    (getTheme (setTheme st (primaryOnly x))).borderRadius = (getTheme st).borderRadius ∧
    (getTheme (setTheme st (primaryOnly x))).shadows = (getTheme st).shadows ∧
    (getTheme (setTheme st (primaryOnly x))).transitions = (getTheme st).transitions ∧
    (∀ k, k ≠ "primary" →
      (getTheme (setTheme st (primaryOnly x))).colors k = (getTheme st).colors k) ∧
    (getTheme (setTheme st (primaryOnly x))).colors "primary" = some x := by
  refine ⟨rfl, rfl, rfl, rfl, rfl, ?_, ?_⟩
  · intro k hk
    simp [getTheme, setTheme, mergeTheme, mergeCat, spreadCat, primaryOnly, hk]
  · simp [getTheme, setTheme, mergeTheme, mergeCat, spreadCat, primaryOnly]

/-- C4 witness at a concrete input. -/
theorem setTheme_primary_frame_witness :
    ("secondary" : String) ≠ "primary" ∧
    (getTheme (setTheme zenInit (primaryOnly "red"))).colors "secondary"
      = (getTheme zenInit).colors "secondary" :=
  ⟨by decide,
   (setTheme_primary_frame zenInit "red").2.2.2.2.2.1 "secondary" (by decide)⟩

/-- C5: setTheme and resetTheme empty the style cache entirely, so no entry
from before the operation survives and no later lookup can reuse one. -/
theorem theme_change_clears_cache (st : ZenState) (p : PartialTheme) :
    (setTheme st p).styleCache = [] ∧ (resetTheme st).styleCache = [] :=
  ⟨rfl, rfl⟩

/-- C6 counterexample: getTheme's spread copy shares the nested category
objects, so writing the primary color through the returned copy changes what
the internal active theme's colors object holds. -/
theorem getTheme_defensive_copy_cex :
    readCat stateC6.heap stateC6.active.colors "primary" = some "#4a6cf7" ∧
    readCat (writeTok stateC6.heap (getThemeCopy stateC6).colors "primary" "red")
        stateC6.active.colors "primary" = some "red" ∧
    (some "red" : Option String) ≠ some "#4a6cf7" := by
  refine ⟨rfl, rfl, by decide⟩

/-- C6 amended: getTheme returns a shallow top-level copy: the copy is a
fresh object, but its six category slots alias the internal category
objects, so a token write through the returned copy's colors object is
visible in the internal active theme. -/
theorem getTheme_shallow_copy (s : HeapState) (k v : String)
    (h : s.active.colors < s.heap.length) :
    (getThemeCopy s).colors = s.active.colors ∧
    readCat (writeTok s.heap (getThemeCopy s).colors k v) s.active.colors k
      = some v := by
  refine ⟨rfl, ?_⟩
  unfold writeTok readCat getThemeCopy
  rw [List.getD_eq_getElem?_getD, List.getElem?_set_self h]
  simp

/-- C6 amended witness at a concrete input. -/
theorem getTheme_shallow_copy_witness :
    stateC6.active.colors < stateC6.heap.length ∧
    ((getThemeCopy stateC6).colors = stateC6.active.colors ∧
     readCat (writeTok stateC6.heap (getThemeCopy stateC6).colors "x" "y")
        stateC6.active.colors "x" = some "y") :=
  ⟨by decide, getTheme_shallow_copy stateC6 "x" "y" (by decide)⟩

/-- C7 counterexample: while the exit animation is pending the overlay is
still attached, and a second close request is not a no-op: it changes the
instance state again (restarting the exit animations). -/
theorem modal_second_close_cex :
    (cleanupStep openModal).attached = true ∧
    cleanupStep (cleanupStep openModal) ≠ cleanupStep openModal := by
  decide

/-- C7 amended: a second close request while the exit animation is pending
re-enters the close branch (the overlay is still attached, so the guard
passes and the exit animations restart), but the overlay is detached at most
once over any sequence of close requests and completion notifications, and a
close request itself never detaches: detachment happens only when the exit
animation's completion notification fires. -/
theorem modal_detach_once (es : List MEvent) (m : MachState) :
    (runEvents es).removals ≤ 1 ∧ (cleanupStep m).removals = m.removals := by
  constructor
  · exact (machInv_run es).2
  · unfold cleanupStep
    split <;> rfl

/-- C8: over any sequence of css calls, theme updates and theme resets from
the initial state, the stylesheet never holds two rules with the same class
name: theme changes clear the cache but never reset the class counter, so
every minted class stays unique for the whole run. -/
theorem stylesheet_classes_unique (ops : List Op) :
    ((runOps zenInit ops).rules).Pairwise (fun a b => a.1 ≠ b.1) :=
  (stInv_runOps zenInit ops stInv_init).2.2.2

/-- C9: a falsy single children value (empty string, zero, null, false)
leaves the built node exactly as if children were absent, and a truthy
single string sets the node's text content. -/
theorem createElement_falsy_children (st : ZenState) (tag : String)
    (p : EProps) (c : ChildV) (s : String)
    (hc : truthyChild c = false) (hs : s ≠ "") :
    createElement st tag { p with children := some (.single c) }
      = createElement st tag { p with children := none } ∧
    childrenOf (createElement st tag
      { p with children := some (.single (.str s)) }).1 = [DNode.text s] := by
  constructor
  · simp [createElement, applyChildren, hc]
  · have hb : (s == "") = false := beq_eq_false_iff_ne.mpr hs
    simp [createElement, applyChildren, childrenOf, truthyChild, hb]

/-- C9 witness at concrete inputs. -/
theorem createElement_falsy_children_witness :
    truthyChild (ChildV.str "") = false ∧ ("a" : String) ≠ "" ∧
    (createElement zenInit "div" { noProps with children := some (.single (.str "")) }
       = createElement zenInit "div" { noProps with children := none } ∧
     childrenOf (createElement zenInit "div"
       { noProps with children := some (.single (.str "a")) }).1 = [DNode.text "a"]) :=
  ⟨by decide, by decide,
   createElement_falsy_children zenInit "div" noProps (ChildV.str "") "a"
     (by decide) (by decide)⟩

/-- C10: invoked open without a title, the Modal's overlay tree contains no
button element at all (the header, and with it the dismiss button, is not
built), no node of the tree subscribes the cleanup closure to any event, and
the overlay's only subscription is the overlay background click handler — so
the close path can begin only through that handler's user onClose callback
or an external call of the instance's cleanup operation. -/
theorem modal_no_title_structure (st : ZenState) (content footer : Option String)
    (oc : Option HTag) (sz : MSize) :
    Modal st (mpNoTitle content footer oc sz)
      = (some ((buildOpenModal st (mpNoTitle content footer oc sz)).1,
          (buildOpenModal st (mpNoTitle content footer oc sz)).2.1),
         (buildOpenModal st (mpNoTitle content footer oc sz)).2.2) ∧
    allN noButton (buildOpenModal st (mpNoTitle content footer oc sz)).2.1 = true ∧
    allN noCleanup (buildOpenModal st (mpNoTitle content footer oc sz)).2.1 = true ∧
    eventsOf (buildOpenModal st (mpNoTitle content footer oc sz)).2.1
      = [("click", HTag.hOverlayClick)] := by
  refine ⟨rfl, ?_, ?_, ?_⟩ <;>
  · rcases content with _ | s <;> rcases footer with _ | f <;>
    · simp only [mpNoTitle, buildOpenModal, createElement, applyCss, applyClassName,
        processRest, applyChildren, childToNode, truthyChild, addEvent, noProps]
      split_ifs <;>
      first
        | exact absurd (by decide : startsOn "onClick" = true) (by assumption)
        | exact absurd (by assumption : ("onClick" : String) = "ref") (by decide)
        | (simp [allN, allNL, noButton, noCleanup, eventsOf, childToNode,
            truthyChild, startsOn, lowerStr, dropStr, lowerChar,
            List.contains, *] <;> decide)
